import Mathlib

/-!
Verification development for the RulingoClub back office
(`accounts/models.py`, `accounts/signals.py`, `accounts/admin.py`).

The Django models, the two post_save signal handlers and the admin
`get_queryset` / `save_model` overrides are shallowly embedded as pure
functions over an explicit relational state `DB`.  Django `User` rows are
embedded as `Account`, primary keys as `Nat`, querysets as `List`, and a
raised exception as the `Except.error` branch of `Except AdminError _`
(resp. `Except String _` for the signal cores, whose exceptions are caught
by the surrounding handler).
-/

/-- An entry of Django auth `User` (`django.contrib.auth.models.User`):
surrogate id, username, and the `is_superuser` flag.  Fields irrelevant to
the embedded logic (email, names, password) are omitted. -/
structure Account where
  id : Nat
  username : String
  is_superuser : Bool
deriving DecidableEq

/-- `accounts.models.Tutor`: one-to-one with `User` via `user`, plus `bio`
and `experience_years`.  `created_at` is an audit timestamp not used by any
embedded rule and is omitted. -/
structure Tutor where
  id : Nat
  userId : Nat
  bio : String
  experience_years : Nat
deriving DecidableEq

/-- `accounts.models.Student`: one-to-one with `User` via `user`, and
`created_by : ForeignKey Tutor`. -/
structure Student where
  id : Nat
  userId : Nat
  createdById : Nat
deriving DecidableEq

/-- `COURSE_TYPE_CHOICES` of `accounts/models.py`. -/
inductive CourseType where
  | demo
  | level
  | custom
deriving DecidableEq

/-- `accounts.models.Course`: owning `tutor`, `title`, `description`,
`course_type` (default `level`).  Timestamps omitted. -/
structure Course where
  id : Nat
  tutorId : Nat
  title : String
  description : String
  course_type : CourseType
deriving DecidableEq

/-- `Course.is_demo` of `accounts/models.py`. -/
def Course.is_demo (c : Course) : Bool :=
  c.course_type = CourseType.demo

/-- Modelled from the spec: the `Enrollment` model class is imported by
`accounts/admin.py` and `accounts/signals.py` from `accounts.models` but its
class body is not present under `src/`.  Per the spec (section 3) it is the
join entity linking one Student and one Course with a `status` field whose
default relevant here is `active`, and duplicates on the `(student, course)`
pair are prevented by a store-level uniqueness key on that pair.  The
surrogate id is kept; the enrollment/completion/update timestamps are
omitted. -/
structure Enrollment where
  id : Nat
  studentId : Nat
  courseId : Nat
  status : String
deriving DecidableEq

/-- The relational store: one table per entity. -/
structure DB where
  users : List Account
  tutors : List Tutor
  students : List Student
  courses : List Course
  enrollments : List Enrollment
deriving DecidableEq

/-- Error taxonomy.  Every constructor corresponds to a `raise` site of the
source; the constructor names follow the names the specification gives to
those failures (`ValidationError` raised for a role problem is the spec
RoleConflict, the two enrollment ownership checks are OwnershipViolation,
the missing superuser tutor selection is MissingAssignment) and each carries
the exact message string of the source. -/
inductive AdminError where
  | roleConflict (msg : String)
  | ownershipViolation (msg : String)
  | missingAssignment (msg : String)
  | tutorDoesNotExist
deriving DecidableEq

/-- Accessor for the reverse one-to-one `user.tutor` (raises
`Tutor.DoesNotExist` in Django when absent; here `none`). -/
def DB.tutorOfUser (db : DB) (userId : Nat) : Option Tutor :=
  db.tutors.find? (fun t => t.userId == userId)

/-- `hasattr(user, 'student')`: a Student row backed by this account
exists. -/
def DB.userHasStudent (db : DB) (userId : Nat) : Bool :=
  db.students.any (fun s => s.userId == userId)

/-- `hasattr(user, 'tutor')`: a Tutor row backed by this account exists. -/
def DB.userHasTutor (db : DB) (userId : Nat) : Bool :=
  db.tutors.any (fun t => t.userId == userId)

/-- Number of role rows (Tutor plus Student) backed by one account: the
quantity the role-exclusivity invariant bounds by 1. -/
def DB.roleRows (db : DB) (userId : Nat) : Nat :=
  (db.tutors.filter (fun t => t.userId == userId)).length
    + (db.students.filter (fun s => s.userId == userId)).length

/-- `Tutor.clean` of `accounts/models.py`: raises a role-conflict
`ValidationError` when the backing user already has a Student profile.
(The guarded `super().clean()` call is a no-op.) -/
def Tutor.clean (db : DB) (t : Tutor) : Except AdminError Unit :=
  if db.userHasStudent t.userId then
    .error (.roleConflict
      "Este usuario ya es Estudiante. Un usuario no puede tener ambos roles.")
  else .ok ()

/-- Replace the Tutor row with the same id (the UPDATE of a save on an
instance that has a primary key). -/
def DB.updateTutor (db : DB) (t : Tutor) : DB :=
  { db with tutors := db.tutors.map (fun x => if x.id == t.id then t else x) }

/-- Replace the Student row with the same id. -/
def DB.updateStudent (db : DB) (s : Student) : DB :=
  { db with students := db.students.map (fun x => if x.id == s.id then s else x) }

/-- `Tutor.save` of `accounts/models.py`: unconditionally runs
`self.full_clean()` (hence `Tutor.clean`) and then persists.  `hasPk`
tells whether `self.pk` is set (UPDATE) or not (INSERT). -/
def Tutor.save (db : DB) (t : Tutor) (hasPk : Bool) : Except AdminError DB :=
  match Tutor.clean db t with
  | .error e => .error e
  | .ok _ =>
    if hasPk then .ok (db.updateTutor t)
    else .ok { db with tutors := db.tutors ++ [t] }

/-- `Student.clean` of `accounts/models.py`: raises a role-conflict
`ValidationError` when the backing user already has a Tutor profile.  (In
the embedding `self.user` is always set, so the `hasattr(self, 'user')`
guard is always true.) -/
def Student.clean (db : DB) (s : Student) : Except AdminError Unit :=
  if db.userHasTutor s.userId then
    .error (.roleConflict
      "Este usuario ya es Tutor. Un usuario no puede tener ambos roles.")
  else .ok ()

/-- `Student.save` of `accounts/models.py`: runs `self.full_clean()` only
when `self.pk` is already set, then persists. -/
def Student.save (db : DB) (s : Student) (hasPk : Bool) : Except AdminError DB :=
  if hasPk then
    match Student.clean db s with
    | .error e => .error e
    | .ok _ => .ok (db.updateStudent s)
  else .ok { db with students := db.students ++ [s] }

/-- Fresh surrogate id for an Enrollment INSERT. -/
def DB.nextEnrollmentId (db : DB) : Nat :=
  (db.enrollments.foldl (fun m e => max m e.id) 0) + 1

/-- The `get` part of `Enrollment.objects.get_or_create(student=…,
course=…)`: does a row for the pair exist. -/
def DB.pairPresent (db : DB) (sid cid : Nat) : Bool :=
  db.enrollments.any (fun e => e.studentId == sid && e.courseId == cid)

/-- `Enrollment.objects.get_or_create(student=…, course=…,
defaults={status: active})` under possible concurrent interference:
`raced` holds rows a racing transaction commits for some pairs between this
call s existence check and its INSERT.  When our pair is absent but raced,
the store rejects our INSERT on the `(student, course)` uniqueness key and
`get_or_create` re-fetches, returning the racer s row (Django s documented
retry); otherwise a fresh row with `status = "active"` is inserted. -/
def DB.getOrCreateRaced (db : DB) (raced : List Enrollment) (sid cid : Nat) : DB :=
  if db.pairPresent sid cid then db
  else
    match raced.find? (fun r => r.studentId == sid && r.courseId == cid) with
    | some r => { db with enrollments := db.enrollments ++ [r] }
    | none =>
      { db with enrollments :=
          db.enrollments ++ [⟨db.nextEnrollmentId, sid, cid, "active"⟩] }

/-- `Enrollment.objects.get_or_create(student=…, course=…,
defaults={status: active})` without concurrent interference. -/
def DB.getOrCreate (db : DB) (sid cid : Nat) : DB :=
  if db.pairPresent sid cid then db
  else
    { db with enrollments :=
        db.enrollments ++ [⟨db.nextEnrollmentId, sid, cid, "active"⟩] }

/-- The body of the `try:` block of `auto_enroll_students_in_demo_courses`
(`accounts/signals.py`): resolve `instance.tutor` (raising when the
reference is dangling), then `get_or_create` an Enrollment for every
Student whose `created_by` is that tutor. -/
def autoEnrollDemoCore (db : DB) (c : Course) : Except String DB :=
  match db.tutors.find? (fun t => t.id == c.tutorId) with
  | none => .error "ObjectDoesNotExist: course tutor"
  | some tutor =>
    .ok ((db.students.filter (fun s => s.createdById == tutor.id)).foldl
      (fun d s => d.getOrCreate s.id c.id) db)

/-- `auto_enroll_students_in_demo_courses` of `accounts/signals.py`: fires
only when `created` and `instance.is_demo()`; the whole `try:` body is
wrapped in `except` clauses that catch every exception, log, and leave the
state as it was. -/
def auto_enroll_students_in_demo_courses (db : DB) (c : Course) (created : Bool) :
    DB :=
  if created && c.is_demo then
    match autoEnrollDemoCore db c with
    | .ok db2 => db2
    | .error _ => db
  else db

/-- The body of the `try:` block of `auto_enroll_new_student_in_demos`
(`accounts/signals.py`): resolve `instance.created_by`, then
`get_or_create` an Enrollment for every Course of that tutor whose
`course_type` is `demo`. -/
def autoEnrollStudentCore (db : DB) (s : Student) : Except String DB :=
  match db.tutors.find? (fun t => t.id == s.createdById) with
  | none => .error "ObjectDoesNotExist: student created_by"
  | some tutor =>
    .ok ((db.courses.filter
        (fun c => c.tutorId == tutor.id && c.course_type == CourseType.demo)).foldl
      (fun d c => d.getOrCreate s.id c.id) db)

/-- `auto_enroll_new_student_in_demos` of `accounts/signals.py`: fires only
when `created`; every exception of the body is caught and logged, leaving
the state unchanged. -/
def auto_enroll_new_student_in_demos (db : DB) (s : Student) (created : Bool) :
    DB :=
  if created then
    match autoEnrollStudentCore db s with
    | .ok db2 => db2
    | .error _ => db
  else db

/-- Creation of a Course row followed by the `post_save` signal dispatch
with `created=True` (what `obj.save()` does on INSERT). -/
def createCourseRow (db : DB) (c : Course) : DB :=
  auto_enroll_students_in_demo_courses
    { db with courses := db.courses ++ [c] } c true

/-- Creation of a Student row followed by the `post_save` signal dispatch
with `created=True`. -/
def createStudentRow (db : DB) (s : Student) : DB :=
  auto_enroll_new_student_in_demos
    { db with students := db.students ++ [s] } s true

namespace TutorAdmin

/-- `TutorAdmin.get_queryset`: superuser sees all tutors, otherwise
`qs.filter(user=request.user)`. -/
def get_queryset (db : DB) (u : Account) : List Tutor :=
  if u.is_superuser then db.tutors
  else db.tutors.filter (fun t => t.userId == u.id)

end TutorAdmin

namespace StudentAdmin

/-- `StudentAdmin.get_queryset`: superuser sees all students; otherwise
`qs.filter(created_by=request.user.tutor)`, and `Tutor.DoesNotExist` is
caught returning `qs.none()`. -/
def get_queryset (db : DB) (u : Account) : List Student :=
  if u.is_superuser then db.students
  else
    match db.tutorOfUser u.id with
    | some t => db.students.filter (fun s => s.createdById == t.id)
    | none => []

end StudentAdmin

namespace CourseAdmin

/-- `CourseAdmin.get_queryset`: superuser sees all courses, otherwise
`qs.filter(tutor__user=request.user)` (join through the owning tutor). -/
def get_queryset (db : DB) (u : Account) : List Course :=
  if u.is_superuser then db.courses
  else db.courses.filter
    (fun c => db.tutors.any (fun t => t.id == c.tutorId && t.userId == u.id))

/-- `CourseAdmin.save_model`: on creation by a non-superuser the owning
tutor is auto-assigned from `request.user.tutor`, raising a
`ValidationError` (spec RoleConflict) when the actor has no Tutor profile;
then `super().save_model` persists the object, whose `post_save` signal
runs the demo auto-enrollment.  On edit (`change=True`) the row is
updated in place. -/
def save_model (db : DB) (u : Account) (c : Course) (change : Bool) :
    Except AdminError DB :=
  if !change then
    if !u.is_superuser then
      match db.tutorOfUser u.id with
      | none =>
        .error (.roleConflict
          "Tu usuario debe tener un perfil de Tutor para crear cursos.")
      | some t => .ok (createCourseRow db { c with tutorId := t.id })
    else .ok (createCourseRow db c)
  else
    .ok { db with courses := db.courses.map (fun x => if x.id == c.id then c else x) }

end CourseAdmin

namespace EnrollmentAdmin

/-- `EnrollmentAdmin.get_queryset`: superuser sees all enrollments,
otherwise `qs.filter(course__tutor__user=request.user)`. -/
def get_queryset (db : DB) (u : Account) : List Enrollment :=
  if u.is_superuser then db.enrollments
  else db.enrollments.filter
    (fun e => db.courses.any (fun c => c.id == e.courseId
      && db.tutors.any (fun t => t.id == c.tutorId && t.userId == u.id)))

/-- `EnrollmentAdmin.save_model`: for a non-superuser, `request.user.tutor`
is resolved (raising `Tutor.DoesNotExist` when absent), then the chosen
course must belong to the actor and the chosen student must have been
created by the actor, each violation raising a `ValidationError` (spec
OwnershipViolation) inside `transaction.atomic`, so nothing is persisted;
otherwise the enrollment row is inserted. -/
def save_model (db : DB) (u : Account) (student : Student) (course : Course)
    (status : String) : Except AdminError DB :=
  let row : Enrollment := ⟨db.nextEnrollmentId, student.id, course.id, status⟩
  if u.is_superuser then
    .ok { db with enrollments := db.enrollments ++ [row] }
  else
    match db.tutorOfUser u.id with
    | none => .error .tutorDoesNotExist
    | some tutor =>
      if course.tutorId != tutor.id then
        .error (.ownershipViolation "Intento de matricular en curso de otro tutor.")
      else if student.createdById != tutor.id then
        .error (.ownershipViolation
          "Intento de matricular estudiante creado por otro tutor.")
      else .ok { db with enrollments := db.enrollments ++ [row] }

end EnrollmentAdmin

/-- Number of Enrollment rows stored for one `(student, course)` pair. -/
def countPair (db : DB) (sid cid : Nat) : Nat :=
  (db.enrollments.filter (fun e => e.studentId == sid && e.courseId == cid)).length

/-- No two Enrollment rows share a `(student, course)` pair. -/
def NoDupPairs (db : DB) : Prop :=
  ∀ sid cid, countPair db sid cid ≤ 1

/-- One Tutor row per account (the one-to-one `Tutor.user` key). -/
def OneTutorPerUser (db : DB) : Prop :=
  ∀ t1 ∈ db.tutors, ∀ t2 ∈ db.tutors, t1.userId = t2.userId → t1 = t2

/-- Generic form of the enrollment loops of both signal handlers under
racing interference: `get_or_create` each `(student, course)` pair of `ps`
in order. -/
def enrollPairsRaced (db : DB) (raced : List Enrollment) (ps : List (Nat × Nat)) :
    DB :=
  ps.foldl (fun d p => d.getOrCreateRaced raced p.1 p.2) db

/-- Generic form of the enrollment loops of both signal handlers:
`get_or_create` each `(student, course)` pair of `ps` in order. -/
def enrollPairs (db : DB) (ps : List (Nat × Nat)) : DB :=
  ps.foldl (fun d p => d.getOrCreate p.1 p.2) db

/-- The `try:` body of `auto_enroll_students_in_demo_courses` under racing
interference on the Enrollment uniqueness key (see
`DB.getOrCreateRaced`). -/
def autoEnrollDemoCoreRaced (db : DB) (raced : List Enrollment) (c : Course) :
    Except String DB :=
  match db.tutors.find? (fun t => t.id == c.tutorId) with
  | none => .error "ObjectDoesNotExist: course tutor"
  | some tutor =>
    .ok ((db.students.filter (fun s => s.createdById == tutor.id)).foldl
      (fun d s => d.getOrCreateRaced raced s.id c.id) db)

/-- Spec section 4.2, stated from the spec text, for comparison against
`TutorAdmin.get_queryset`: a Tutor actor sees only the Tutor row backed by
its own account. -/
def specVisibleTutors (db : DB) (u : Account) : List Tutor :=
  db.tutors.filter (fun t => t.userId == u.id)

/-- Spec section 4.2, stated from the spec text, for comparison against
`StudentAdmin.get_queryset`: a Tutor actor sees only Students whose
`created_by` equals the Tutor row of the actor. -/
def specVisibleStudents (db : DB) (u : Account) : List Student :=
  db.students.filter
    (fun s => db.tutors.any (fun t => t.userId == u.id && s.createdById == t.id))

/-- Spec section 4.2, stated from the spec text, for comparison against
`CourseAdmin.get_queryset`: a Tutor actor sees only Courses whose owning
Tutor equals the Tutor row of the actor. -/
def specVisibleCourses (db : DB) (u : Account) : List Course :=
  db.courses.filter
    (fun c => db.tutors.any (fun t => t.userId == u.id && c.tutorId == t.id))

/-- Spec section 4.2, stated from the spec text, for comparison against
`EnrollmentAdmin.get_queryset`: a Tutor actor sees only Enrollments whose
Course has the Tutor row of the actor as owner. -/
def specVisibleEnrollments (db : DB) (u : Account) : List Enrollment :=
  db.enrollments.filter
    (fun e => db.courses.any (fun c => c.id == e.courseId
      && db.tutors.any (fun t => t.userId == u.id && c.tutorId == t.id)))

theorem pairPresent_iff (db : DB) (sid cid : Nat) :
    db.pairPresent sid cid = true ↔ 0 < countPair db sid cid := by
  unfold DB.pairPresent countPair
  rw [List.any_eq_true, List.length_pos_iff_exists_mem]
  constructor
  · rintro ⟨e, he, hp⟩
    exact ⟨e, List.mem_filter.mpr ⟨he, hp⟩⟩
  · rintro ⟨e, he⟩
    obtain ⟨he1, he2⟩ := List.mem_filter.mp he
    exact ⟨e, he1, he2⟩

theorem getOrCreateRaced_cases (db : DB) (raced : List Enrollment) (s c : Nat) :
    (db.pairPresent s c = true ∧ db.getOrCreateRaced raced s c = db) ∨
    (db.pairPresent s c = false ∧ ∃ e : Enrollment,
      e.studentId = s ∧ e.courseId = c ∧ (e ∈ raced ∨ e.status = "active") ∧
      db.getOrCreateRaced raced s c =
        { db with enrollments := db.enrollments ++ [e] }) := by
  by_cases hp : db.pairPresent s c = true
  · exact Or.inl ⟨hp, by simp [DB.getOrCreateRaced, hp]⟩
  · right
    refine ⟨by simpa using hp, ?_⟩
    cases hfind : raced.find? (fun r => r.studentId == s && r.courseId == c) with
    | none =>
      exact ⟨⟨db.nextEnrollmentId, s, c, "active"⟩, rfl, rfl, Or.inr rfl,
        by simp [DB.getOrCreateRaced, hp, hfind]⟩
    | some r =>
      have hpred := List.find?_some hfind
      have hmem := List.mem_of_find?_eq_some hfind
      simp only [Bool.and_eq_true, beq_iff_eq] at hpred
      exact ⟨r, hpred.1, hpred.2, Or.inl hmem,
        by simp [DB.getOrCreateRaced, hp, hfind]⟩

theorem getOrCreate_eq_raced (db : DB) (s c : Nat) :
    db.getOrCreate s c = db.getOrCreateRaced [] s c := by
  simp [DB.getOrCreate, DB.getOrCreateRaced, List.find?]

theorem getOrCreateRaced_tables (db : DB) (raced : List Enrollment) (s c : Nat) :
    (db.getOrCreateRaced raced s c).users = db.users ∧
    (db.getOrCreateRaced raced s c).tutors = db.tutors ∧
    (db.getOrCreateRaced raced s c).students = db.students ∧
    (db.getOrCreateRaced raced s c).courses = db.courses := by
  rcases getOrCreateRaced_cases db raced s c with ⟨_, heq⟩ | ⟨_, e, _, _, _, heq⟩ <;>
    rw [heq] <;> exact ⟨rfl, rfl, rfl, rfl⟩

theorem countPair_getOrCreateRaced (db : DB) (raced : List Enrollment)
    (s c sid cid : Nat) :
    countPair (db.getOrCreateRaced raced s c) sid cid =
      if s = sid ∧ c = cid ∧ countPair db sid cid = 0 then 1
      else countPair db sid cid := by
  rcases getOrCreateRaced_cases db raced s c with ⟨hp, heq⟩ | ⟨hp, e, hs, hc, _, heq⟩
  · rw [heq, if_neg]
    rintro ⟨rfl, rfl, h0⟩
    have := (pairPresent_iff db s c).mp hp
    omega
  · rw [heq]
    have h0 : countPair db s c = 0 := by
      have := pairPresent_iff db s c
      rcases Nat.eq_zero_or_pos (countPair db s c) with h | h
      · exact h
      · rw [this.mpr h] at hp; cases hp
    unfold countPair
    simp only [List.filter_append, List.length_append]
    by_cases hsc : s = sid ∧ c = cid
    · obtain ⟨rfl, rfl⟩ := hsc
      rw [if_pos ⟨rfl, rfl, h0⟩]
      unfold countPair at h0
      simp [List.filter, hs, hc, h0]
    · rw [if_neg (by tauto)]
      have : (e.studentId == sid && e.courseId == cid) = false := by
        subst hs hc
        rcases not_and_or.mp hsc with h | h <;> simp [h]
      simp [List.filter, this]

theorem mem_getOrCreateRaced (db : DB) (raced : List Enrollment) (s c : Nat)
    (e : Enrollment) (he : e ∈ (db.getOrCreateRaced raced s c).enrollments) :
    e ∈ db.enrollments ∨ e ∈ raced ∨
      (e.studentId = s ∧ e.courseId = c ∧ e.status = "active") := by
  rcases getOrCreateRaced_cases db raced s c with ⟨_, heq⟩ | ⟨_, r, hs, hc, hr, heq⟩
  · rw [heq] at he; exact Or.inl he
  · rw [heq] at he
    rcases List.mem_append.mp he with h | h
    · exact Or.inl h
    · have : e = r := by simpa using h
      subst this
      rcases hr with h2 | h2
      · exact Or.inr (Or.inl h2)
      · exact Or.inr (Or.inr ⟨hs, hc, h2⟩)

theorem subset_getOrCreateRaced (db : DB) (raced : List Enrollment) (s c : Nat)
    (e : Enrollment) (he : e ∈ db.enrollments) :
    e ∈ (db.getOrCreateRaced raced s c).enrollments := by
  rcases getOrCreateRaced_cases db raced s c with ⟨_, heq⟩ | ⟨_, r, _, _, _, heq⟩
  · rw [heq]; exact he
  · rw [heq]; exact List.mem_append.mpr (Or.inl he)

theorem filterPair_getOrCreateRaced (db : DB) (raced : List Enrollment)
    (s c sid cid : Nat) (h : 0 < countPair db sid cid) :
    ((db.getOrCreateRaced raced s c).enrollments.filter
        (fun e => e.studentId == sid && e.courseId == cid))
      = db.enrollments.filter (fun e => e.studentId == sid && e.courseId == cid) := by
  rcases getOrCreateRaced_cases db raced s c with ⟨_, heq⟩ | ⟨hp, r, hs, hc, _, heq⟩
  · rw [heq]
  · rw [heq]
    by_cases hsc : s = sid ∧ c = cid
    · obtain ⟨rfl, rfl⟩ := hsc
      rw [(pairPresent_iff db s c).mpr h] at hp
      cases hp
    · have hr : (r.studentId == sid && r.courseId == cid) = false := by
        subst hs hc
        rcases not_and_or.mp hsc with h2 | h2 <;> simp [h2]
      simp [List.filter_append, List.filter, hr]

theorem enrollPairsRaced_cons (db : DB) (raced : List Enrollment)
    (p : Nat × Nat) (ps : List (Nat × Nat)) :
    enrollPairsRaced db raced (p :: ps) =
      enrollPairsRaced (db.getOrCreateRaced raced p.1 p.2) raced ps := rfl

theorem enrollPairsRaced_tables (db : DB) (raced : List Enrollment)
    (ps : List (Nat × Nat)) :
    (enrollPairsRaced db raced ps).users = db.users ∧
    (enrollPairsRaced db raced ps).tutors = db.tutors ∧
    (enrollPairsRaced db raced ps).students = db.students ∧
    (enrollPairsRaced db raced ps).courses = db.courses := by
  induction ps generalizing db with
  | nil => exact ⟨rfl, rfl, rfl, rfl⟩
  | cons p ps ih =>
    rw [enrollPairsRaced_cons]
    obtain ⟨h1, h2, h3, h4⟩ := ih (db.getOrCreateRaced raced p.1 p.2)
    obtain ⟨g1, g2, g3, g4⟩ := getOrCreateRaced_tables db raced p.1 p.2
    exact ⟨h1.trans g1, h2.trans g2, h3.trans g3, h4.trans g4⟩

theorem countPair_enrollPairsRaced (db : DB) (raced : List Enrollment)
    (ps : List (Nat × Nat)) (sid cid : Nat) :
    countPair (enrollPairsRaced db raced ps) sid cid =
      if (sid, cid) ∈ ps ∧ countPair db sid cid = 0 then 1
      else countPair db sid cid := by
  induction ps generalizing db with
  | nil => simp [enrollPairsRaced]
  | cons p ps ih =>
    obtain ⟨a, b⟩ := p
    rw [enrollPairsRaced_cons, ih, countPair_getOrCreateRaced]
    simp only [List.mem_cons, Prod.mk.injEq]
    by_cases ha : a = sid
    · by_cases hb : b = cid
      · subst ha hb
        by_cases h0 : countPair db a b = 0
        · simp [h0]
        · simp [h0]
      · simp [hb, Ne.symm hb]
    · simp [ha, Ne.symm ha]

theorem mem_enrollPairsRaced (db : DB) (raced : List Enrollment)
    (ps : List (Nat × Nat)) (e : Enrollment)
    (he : e ∈ (enrollPairsRaced db raced ps).enrollments) :
    e ∈ db.enrollments ∨ e ∈ raced ∨
      ((e.studentId, e.courseId) ∈ ps ∧ e.status = "active") := by
  induction ps generalizing db with
  | nil => exact Or.inl he
  | cons p ps ih =>
    rw [enrollPairsRaced_cons] at he
    rcases ih _ he with h | h | ⟨h1, h2⟩
    · rcases mem_getOrCreateRaced db raced p.1 p.2 e h with g | g | ⟨g1, g2, g3⟩
      · exact Or.inl g
      · exact Or.inr (Or.inl g)
      · refine Or.inr (Or.inr ⟨?_, g3⟩)
        rw [g1, g2]
        exact List.mem_cons_self _ _
    · exact Or.inr (Or.inl h)
    · exact Or.inr (Or.inr ⟨List.mem_cons_of_mem _ h1, h2⟩)

theorem subset_enrollPairsRaced (db : DB) (raced : List Enrollment)
    (ps : List (Nat × Nat)) (e : Enrollment) (he : e ∈ db.enrollments) :
    e ∈ (enrollPairsRaced db raced ps).enrollments := by
  induction ps generalizing db with
  | nil => exact he
  | cons p ps ih =>
    rw [enrollPairsRaced_cons]
    exact ih _ (subset_getOrCreateRaced db raced p.1 p.2 e he)

theorem filterPair_enrollPairsRaced (db : DB) (raced : List Enrollment)
    (ps : List (Nat × Nat)) (sid cid : Nat) (h : 0 < countPair db sid cid) :
    ((enrollPairsRaced db raced ps).enrollments.filter
        (fun e => e.studentId == sid && e.courseId == cid))
      = db.enrollments.filter (fun e => e.studentId == sid && e.courseId == cid) := by
  induction ps generalizing db with
  | nil => rfl
  | cons p ps ih =>
    rw [enrollPairsRaced_cons]
    have hpos : 0 < countPair (db.getOrCreateRaced raced p.1 p.2) sid cid := by
      rw [countPair_getOrCreateRaced]
      split <;> omega
    rw [ih _ hpos, filterPair_getOrCreateRaced db raced p.1 p.2 sid cid h]

theorem enrollPairsRaced_id (db : DB) (raced : List Enrollment)
    (ps : List (Nat × Nat)) (h : ∀ p ∈ ps, 0 < countPair db p.1 p.2) :
    enrollPairsRaced db raced ps = db := by
  induction ps with
  | nil => rfl
  | cons p ps ih =>
    rw [enrollPairsRaced_cons]
    have hpres : db.pairPresent p.1 p.2 = true :=
      (pairPresent_iff db p.1 p.2).mpr (h p (List.mem_cons_self _ _))
    have hstep : db.getOrCreateRaced raced p.1 p.2 = db := by
      rcases getOrCreateRaced_cases db raced p.1 p.2 with ⟨_, heq⟩ | ⟨hp, _⟩
      · exact heq
      · rw [hpres] at hp; cases hp
    rw [hstep]
    exact ih (fun q hq => h q (List.mem_cons_of_mem _ hq))

theorem enrollPairs_eq_raced (db : DB) (ps : List (Nat × Nat)) :
    enrollPairs db ps = enrollPairsRaced db [] ps := by
  induction ps generalizing db with
  | nil => rfl
  | cons p ps ih =>
    show enrollPairs (db.getOrCreate p.1 p.2) ps = _
    rw [enrollPairsRaced_cons, ih, getOrCreate_eq_raced]

theorem autoEnrollDemoCore_eq (db : DB) (c : Course) (t : Tutor)
    (hfind : db.tutors.find? (fun x => x.id == c.tutorId) = some t) :
    autoEnrollDemoCore db c = .ok (enrollPairs db
      ((db.students.filter (fun s => s.createdById == t.id)).map
        (fun s => (s.id, c.id)))) := by
  unfold autoEnrollDemoCore
  rw [hfind]
  rw [enrollPairs, List.foldl_map]

theorem autoEnrollStudentCore_eq (db : DB) (s : Student) (t : Tutor)
    (hfind : db.tutors.find? (fun x => x.id == s.createdById) = some t) :
    autoEnrollStudentCore db s = .ok (enrollPairs db
      ((db.courses.filter
          (fun c => c.tutorId == t.id && c.course_type == CourseType.demo)).map
        (fun c => (s.id, c.id)))) := by
  unfold autoEnrollStudentCore
  rw [hfind]
  rw [enrollPairs, List.foldl_map]

theorem auto1_eq (db : DB) (c : Course) (b : Bool) :
    auto_enroll_students_in_demo_courses db c b = db ∨
    (b = true ∧ c.is_demo = true ∧ ∃ t : Tutor,
      db.tutors.find? (fun x => x.id == c.tutorId) = some t ∧
      auto_enroll_students_in_demo_courses db c b =
        enrollPairsRaced db []
          ((db.students.filter (fun s => s.createdById == t.id)).map
            (fun s => (s.id, c.id)))) := by
  unfold auto_enroll_students_in_demo_courses
  by_cases hb : (b && c.is_demo) = true
  · cases hfind : db.tutors.find? (fun x => x.id == c.tutorId) with
    | none =>
      left
      simp [hb, autoEnrollDemoCore, hfind]
    | some t =>
      right
      have hb3 := hb
      rw [Bool.and_eq_true] at hb3
      refine ⟨hb3.1, hb3.2, t, rfl, ?_⟩
      rw [if_pos hb, autoEnrollDemoCore_eq db c t hfind, enrollPairs_eq_raced]
  · left
    rw [if_neg hb]

theorem auto2_eq (db : DB) (s : Student) (b : Bool) :
    auto_enroll_new_student_in_demos db s b = db ∨
    (b = true ∧ ∃ t : Tutor,
      db.tutors.find? (fun x => x.id == s.createdById) = some t ∧
      auto_enroll_new_student_in_demos db s b =
        enrollPairsRaced db []
          ((db.courses.filter
              (fun c => c.tutorId == t.id && c.course_type == CourseType.demo)).map
            (fun c => (s.id, c.id)))) := by
  unfold auto_enroll_new_student_in_demos
  by_cases hb : b = true
  · cases hfind : db.tutors.find? (fun x => x.id == s.createdById) with
    | none =>
      left
      simp [hb, autoEnrollStudentCore, hfind]
    | some t =>
      right
      refine ⟨hb, t, rfl, ?_⟩
      rw [if_pos hb, autoEnrollStudentCore_eq db s t hfind, enrollPairs_eq_raced]
  · left
    rw [if_neg hb]

theorem auto1_tables (db : DB) (c : Course) (b : Bool) :
    (auto_enroll_students_in_demo_courses db c b).users = db.users ∧
    (auto_enroll_students_in_demo_courses db c b).tutors = db.tutors ∧
    (auto_enroll_students_in_demo_courses db c b).students = db.students ∧
    (auto_enroll_students_in_demo_courses db c b).courses = db.courses := by
  rcases auto1_eq db c b with h | ⟨_, _, t, _, h⟩ <;> rw [h]
  · exact ⟨rfl, rfl, rfl, rfl⟩
  · exact enrollPairsRaced_tables _ _ _

theorem auto2_tables (db : DB) (s : Student) (b : Bool) :
    (auto_enroll_new_student_in_demos db s b).users = db.users ∧
    (auto_enroll_new_student_in_demos db s b).tutors = db.tutors ∧
    (auto_enroll_new_student_in_demos db s b).students = db.students ∧
    (auto_enroll_new_student_in_demos db s b).courses = db.courses := by
  rcases auto2_eq db s b with h | ⟨_, t, _, h⟩ <;> rw [h]
  · exact ⟨rfl, rfl, rfl, rfl⟩
  · exact enrollPairsRaced_tables _ _ _

theorem countPair_eq_zero (db : DB) (sid cid : Nat)
    (h : ∀ e ∈ db.enrollments, e.studentId ≠ sid ∨ e.courseId ≠ cid) :
    countPair db sid cid = 0 := by
  unfold countPair
  rw [List.length_eq_zero, List.filter_eq_nil_iff]
  intro e he
  rcases h e he with h2 | h2 <;> simp [h2]

theorem countPair_pos_of_mem (db : DB) (e : Enrollment)
    (he : e ∈ db.enrollments) : 0 < countPair db e.studentId e.courseId := by
  unfold countPair
  rw [List.length_pos_iff_exists_mem]
  exact ⟨e, List.mem_filter.mpr ⟨he, by simp⟩⟩

theorem auto1_stable (db R : DB) (c : Course) (t : Tutor)
    (hd : c.is_demo = true)
    (ht2 : R.tutors = db.tutors)
    (hfind : db.tutors.find? (fun x => x.id == c.tutorId) = some t)
    (hcount : ∀ p ∈ (R.students.filter (fun s => s.createdById == t.id)).map
        (fun s => (s.id, c.id)), 0 < countPair R p.1 p.2) :
    auto_enroll_students_in_demo_courses R c true = R := by
  unfold auto_enroll_students_in_demo_courses
  have hfind2 : R.tutors.find? (fun x => x.id == c.tutorId) = some t := by
    rw [ht2]; exact hfind
  rw [if_pos (by simp [hd])]
  cases hcore : autoEnrollDemoCore R c with
  | error e =>
    rw [autoEnrollDemoCore_eq R c t hfind2] at hcore
  | ok db2 =>
    rw [autoEnrollDemoCore_eq R c t hfind2] at hcore
    injection hcore with h2
    show db2 = R
    rw [← h2, enrollPairs_eq_raced]
    exact enrollPairsRaced_id R []
      ((R.students.filter (fun s => s.createdById == t.id)).map
        (fun s => (s.id, c.id))) hcount

theorem auto2_stable (db R : DB) (s : Student) (t : Tutor)
    (ht2 : R.tutors = db.tutors)
    (hfind : db.tutors.find? (fun x => x.id == s.createdById) = some t)
    (hcount : ∀ p ∈ ((R.courses.filter
        (fun c => c.tutorId == t.id && c.course_type == CourseType.demo)).map
        (fun c => (s.id, c.id))), 0 < countPair R p.1 p.2) :
    auto_enroll_new_student_in_demos R s true = R := by
  unfold auto_enroll_new_student_in_demos
  have hfind2 : R.tutors.find? (fun x => x.id == s.createdById) = some t := by
    rw [ht2]; exact hfind
  rw [if_pos rfl]
  cases hcore : autoEnrollStudentCore R s with
  | error e =>
    rw [autoEnrollStudentCore_eq R s t hfind2] at hcore
  | ok db2 =>
    rw [autoEnrollStudentCore_eq R s t hfind2] at hcore
    injection hcore with h2
    show db2 = R
    rw [← h2, enrollPairs_eq_raced]
    exact enrollPairsRaced_id R []
      (((R.courses.filter
          (fun c => c.tutorId == t.id && c.course_type == CourseType.demo)).map
        (fun c => (s.id, c.id)))) hcount

/-- C3: on creation of a Course with course_type demo, every Student whose
created_by equals the new Course tutor afterwards has exactly one
Enrollment row for the (student, course) pair; every enrollment row of the
new course carries status active; and the trigger does nothing when the
save is not a creation or when the course is not a demo. -/
theorem c3_demo_course_creation_enrolls_all (db : DB) (c : Course) (t : Tutor)
    (hfind : db.tutors.find? (fun x => x.id == c.tutorId) = some t)
    (hfresh : ∀ e ∈ db.enrollments, e.courseId ≠ c.id)
    (hdemo : c.course_type = CourseType.demo) :
    (∀ s ∈ db.students, s.createdById = c.tutorId →
      countPair (auto_enroll_students_in_demo_courses db c true) s.id c.id = 1) ∧
    (∀ e ∈ (auto_enroll_students_in_demo_courses db c true).enrollments,
      e.courseId = c.id → e.status = "active") ∧
    auto_enroll_students_in_demo_courses db c false = db ∧
    (∀ c2 : Course, c2.course_type ≠ CourseType.demo →
      auto_enroll_students_in_demo_courses db c2 true = db) := by
  have ht : t.id = c.tutorId := by
    have h := List.find?_some hfind
    simpa using h
  have hdemoB : c.is_demo = true := by
    simp [Course.is_demo, hdemo]
  have heq : auto_enroll_students_in_demo_courses db c true =
      enrollPairsRaced db []
        ((db.students.filter (fun s => s.createdById == t.id)).map
          (fun s => (s.id, c.id))) := by
    unfold auto_enroll_students_in_demo_courses
    rw [if_pos (by simp [hdemoB])]
    cases hcore : autoEnrollDemoCore db c with
    | error e =>
      rw [autoEnrollDemoCore_eq db c t hfind] at hcore
      cases hcore
    | ok db2 =>
      rw [autoEnrollDemoCore_eq db c t hfind] at hcore
      injection hcore with h2
      show db2 = _
      rw [← h2, enrollPairs_eq_raced]
  refine ⟨?_, ?_, rfl, ?_⟩
  · intro s hs hcb
    rw [heq, countPair_enrollPairsRaced]
    have hmem : (s.id, c.id) ∈
        (db.students.filter (fun x => x.createdById == t.id)).map
          (fun x => (x.id, c.id)) := by
      refine List.mem_map.mpr ⟨s, List.mem_filter.mpr ⟨hs, ?_⟩, rfl⟩
      simp [hcb, ht]
    have h0 : countPair db s.id c.id = 0 :=
      countPair_eq_zero db s.id c.id (fun e he => Or.inr (hfresh e he))
    rw [if_pos ⟨hmem, h0⟩]
  · intro e he hcid
    rw [heq] at he
    rcases mem_enrollPairsRaced _ _ _ _ he with h | h | ⟨_, h2⟩
    · exact absurd hcid (hfresh e h)
    · cases h
    · exact h2
  · intro c2 h2
    have hd2 : c2.is_demo = false := by
      simp [Course.is_demo, h2]
    unfold auto_enroll_students_in_demo_courses
    rw [if_neg (by simp [hd2])]

/-- Witness for C3 at a concrete store: tutor 1 has one student (id 1);
creating demo course 1 leaves exactly one enrollment row for pair (1, 1). -/
theorem c3_demo_course_creation_enrolls_all_witness :
    countPair
      (auto_enroll_students_in_demo_courses
        ⟨[], [⟨1, 1, "", 0⟩], [⟨1, 10, 1⟩], [], []⟩
        ⟨1, 1, "Curso Demo", "d", CourseType.demo⟩ true) 1 1 = 1 :=
  (c3_demo_course_creation_enrolls_all
      ⟨[], [⟨1, 1, "", 0⟩], [⟨1, 10, 1⟩], [], []⟩
      ⟨1, 1, "Curso Demo", "d", CourseType.demo⟩ ⟨1, 1, "", 0⟩
      (by decide) (by decide) (by decide)).1
    ⟨1, 10, 1⟩ (by decide) (by decide)

/-- C4: on creation of a Student, every demo Course owned by the created_by
Tutor afterwards has exactly one Enrollment row for the (student, course)
pair; every enrollment row of the new student carries status active; and
the trigger does nothing when the save is not a creation. -/
theorem c4_new_student_enrolled_in_demos (db : DB) (s : Student) (t : Tutor)
    (hfind : db.tutors.find? (fun x => x.id == s.createdById) = some t)
    (hfresh : ∀ e ∈ db.enrollments, e.studentId ≠ s.id) :
    (∀ c ∈ db.courses, c.tutorId = s.createdById →
      c.course_type = CourseType.demo →
      countPair (auto_enroll_new_student_in_demos db s true) s.id c.id = 1) ∧
    (∀ e ∈ (auto_enroll_new_student_in_demos db s true).enrollments,
      e.studentId = s.id → e.status = "active") ∧
    auto_enroll_new_student_in_demos db s false = db := by
  have ht : t.id = s.createdById := by
    have h := List.find?_some hfind
    simpa using h
  have heq : auto_enroll_new_student_in_demos db s true =
      enrollPairsRaced db []
        ((db.courses.filter
            (fun c => c.tutorId == t.id && c.course_type == CourseType.demo)).map
          (fun c => (s.id, c.id))) := by
    unfold auto_enroll_new_student_in_demos
    rw [if_pos rfl]
    cases hcore : autoEnrollStudentCore db s with
    | error e =>
      rw [autoEnrollStudentCore_eq db s t hfind] at hcore
      cases hcore
    | ok db2 =>
      rw [autoEnrollStudentCore_eq db s t hfind] at hcore
      injection hcore with h2
      show db2 = _
      rw [← h2, enrollPairs_eq_raced]
  refine ⟨?_, ?_, rfl⟩
  · intro c hc hcb hd
    rw [heq, countPair_enrollPairsRaced]
    have hmem : (s.id, c.id) ∈
        (db.courses.filter
            (fun x => x.tutorId == t.id && x.course_type == CourseType.demo)).map
          (fun x => (s.id, x.id)) := by
      refine List.mem_map.mpr ⟨c, List.mem_filter.mpr ⟨hc, ?_⟩, rfl⟩
      simp [hcb, hd, ht]
    have h0 : countPair db s.id c.id = 0 :=
      countPair_eq_zero db s.id c.id (fun e he => Or.inl (hfresh e he))
    rw [if_pos ⟨hmem, h0⟩]
  · intro e he hsid
    rw [heq] at he
    rcases mem_enrollPairsRaced _ _ _ _ he with h | h | ⟨_, h2⟩
    · exact absurd hsid (hfresh e h)
    · cases h
    · exact h2

/-- Witness for C4 at a concrete store: tutor 1 already owns demo course 1;
creating student 1 leaves exactly one enrollment row for pair (1, 1). -/
theorem c4_new_student_enrolled_in_demos_witness :
    countPair
      (auto_enroll_new_student_in_demos
        ⟨[], [⟨1, 1, "", 0⟩], [], [⟨1, 1, "Curso Demo", "d", CourseType.demo⟩], []⟩
        ⟨1, 10, 1⟩ true) 1 1 = 1 :=
  (c4_new_student_enrolled_in_demos
      ⟨[], [⟨1, 1, "", 0⟩], [], [⟨1, 1, "Curso Demo", "d", CourseType.demo⟩], []⟩
      ⟨1, 10, 1⟩ ⟨1, 1, "", 0⟩ (by decide) (by decide)).1
    ⟨1, 1, "Curso Demo", "d", CourseType.demo⟩ (by decide) (by decide) (by decide)

/-- C5: both auto-enrollment triggers are idempotent — re-running a trigger
on its own output changes nothing — and each trigger preserves freedom from
duplicate (student, course) Enrollment rows, because the create-if-absent
check keyed on the pair is authoritative. -/
theorem c5_triggers_idempotent :
    (∀ (db : DB) (c : Course) (b : Bool),
      auto_enroll_students_in_demo_courses
          (auto_enroll_students_in_demo_courses db c b) c b =
        auto_enroll_students_in_demo_courses db c b) ∧
    (∀ (db : DB) (s : Student) (b : Bool),
      auto_enroll_new_student_in_demos
          (auto_enroll_new_student_in_demos db s b) s b =
        auto_enroll_new_student_in_demos db s b) ∧
    (∀ (db : DB) (c : Course) (b : Bool), NoDupPairs db →
      NoDupPairs (auto_enroll_students_in_demo_courses db c b)) ∧
    (∀ (db : DB) (s : Student) (b : Bool), NoDupPairs db →
      NoDupPairs (auto_enroll_new_student_in_demos db s b)) := by
  refine ⟨?_, ?_, ?_, ?_⟩
  · intro db c b
    rcases auto1_eq db c b with h | ⟨hb, hd, t, hfind, heq⟩
    · rw [h]; exact h
    · subst hb
      rw [heq]
      obtain ⟨hu, ht2, hs2, hc2⟩ := enrollPairsRaced_tables db []
        ((db.students.filter (fun s => s.createdById == t.id)).map
          (fun s => (s.id, c.id)))
      apply auto1_stable db _ c t hd ht2 hfind
      intro p hp
      rw [hs2] at hp
      rw [countPair_enrollPairsRaced]
      split_ifs with h
      · omega
      · have hne : countPair db p.1 p.2 ≠ 0 := fun hz => h ⟨hp, hz⟩
        omega
  · intro db s b
    rcases auto2_eq db s b with h | ⟨hb, t, hfind, heq⟩
    · rw [h]; exact h
    · subst hb
      rw [heq]
      obtain ⟨hu, ht2, hs2, hc2⟩ := enrollPairsRaced_tables db []
        ((db.courses.filter
            (fun c => c.tutorId == t.id && c.course_type == CourseType.demo)).map
          (fun c => (s.id, c.id)))
      apply auto2_stable db _ s t ht2 hfind
      intro p hp
      rw [hc2] at hp
      rw [countPair_enrollPairsRaced]
      split_ifs with h
      · omega
      · have hne : countPair db p.1 p.2 ≠ 0 := fun hz => h ⟨hp, hz⟩
        omega
  · intro db c b hnd
    rcases auto1_eq db c b with h | ⟨hb, hd, t, hfind, heq⟩
    · rw [h]; exact hnd
    · rw [heq]
      intro sid cid
      rw [countPair_enrollPairsRaced]
      split_ifs with h
      · omega
      · exact hnd sid cid
  · intro db s b hnd
    rcases auto2_eq db s b with h | ⟨hb, t, hfind, heq⟩
    · rw [h]; exact hnd
    · rw [heq]
      intro sid cid
      rw [countPair_enrollPairsRaced]
      split_ifs with h
      · omega
      · exact hnd sid cid

/-- Witness for C5 at a concrete store: the no-duplicates invariant is
preserved by the demo-course trigger starting from a duplicate-free
store. -/
theorem c5_triggers_idempotent_witness :
    NoDupPairs (auto_enroll_students_in_demo_courses
      ⟨[], [⟨1, 1, "", 0⟩], [⟨1, 10, 1⟩], [], []⟩
      ⟨1, 1, "Curso Demo", "d", CourseType.demo⟩ true) :=
  c5_triggers_idempotent.2.2.1
    ⟨[], [⟨1, 1, "", 0⟩], [⟨1, 10, 1⟩], [], []⟩
    ⟨1, 1, "Curso Demo", "d", CourseType.demo⟩ true
    (fun sid cid => by simp [countPair])

/-- C10: a pre-existing Enrollment row survives either trigger unchanged:
the row is still stored afterwards and the list of stored rows for its
(student, course) pair is exactly as before, so the default status active
is applied only to newly created rows and an existing status such as
completed is never reset by a re-run. -/
theorem c10_existing_enrollment_untouched (db : DB) (e : Enrollment)
    (c : Course) (s : Student) (b : Bool) (he : e ∈ db.enrollments) :
    e ∈ (auto_enroll_students_in_demo_courses db c b).enrollments ∧
    e ∈ (auto_enroll_new_student_in_demos db s b).enrollments ∧
    ((auto_enroll_students_in_demo_courses db c b).enrollments.filter
        (fun x => x.studentId == e.studentId && x.courseId == e.courseId))
      = db.enrollments.filter
          (fun x => x.studentId == e.studentId && x.courseId == e.courseId) ∧
    ((auto_enroll_new_student_in_demos db s b).enrollments.filter
        (fun x => x.studentId == e.studentId && x.courseId == e.courseId))
      = db.enrollments.filter
          (fun x => x.studentId == e.studentId && x.courseId == e.courseId) := by
  have hpos := countPair_pos_of_mem db e he
  refine ⟨?_, ?_, ?_, ?_⟩
  · rcases auto1_eq db c b with h | ⟨_, _, t, _, h⟩ <;> rw [h]
    · exact he
    · exact subset_enrollPairsRaced _ _ _ e he
  · rcases auto2_eq db s b with h | ⟨_, t, _, h⟩ <;> rw [h]
    · exact he
    · exact subset_enrollPairsRaced _ _ _ e he
  · rcases auto1_eq db c b with h | ⟨_, _, t, _, h⟩ <;> rw [h]
    · exact filterPair_enrollPairsRaced _ _ _ _ _ hpos
  · rcases auto2_eq db s b with h | ⟨_, t, _, h⟩ <;> rw [h]
    · exact filterPair_enrollPairsRaced _ _ _ _ _ hpos

/-- Witness for C10 at a concrete store: a completed enrollment for pair
(1, 1) is untouched when the demo-course trigger runs again over it. -/
theorem c10_existing_enrollment_untouched_witness :
    ((auto_enroll_students_in_demo_courses
        ⟨[], [⟨1, 1, "", 0⟩], [⟨1, 10, 1⟩], [], [⟨5, 1, 1, "completed"⟩]⟩
        ⟨1, 1, "Curso Demo", "d", CourseType.demo⟩ true).enrollments.filter
      (fun x => x.studentId == 1 && x.courseId == 1))
      = [⟨5, 1, 1, "completed"⟩] :=
  ((c10_existing_enrollment_untouched
      ⟨[], [⟨1, 1, "", 0⟩], [⟨1, 10, 1⟩], [], [⟨5, 1, 1, "completed"⟩]⟩
      ⟨5, 1, 1, "completed"⟩
      ⟨1, 1, "Curso Demo", "d", CourseType.demo⟩ ⟨1, 10, 1⟩ true
      (by decide)).2.2.1).trans (by decide)

theorem autoEnrollDemoCoreRaced_eq (db : DB) (raced : List Enrollment)
    (c : Course) (t : Tutor)
    (hfind : db.tutors.find? (fun x => x.id == c.tutorId) = some t) :
    autoEnrollDemoCoreRaced db raced c = .ok (enrollPairsRaced db raced
      ((db.students.filter (fun s => s.createdById == t.id)).map
        (fun s => (s.id, c.id)))) := by
  unfold autoEnrollDemoCoreRaced
  rw [hfind]
  rw [enrollPairsRaced, List.foldl_map]

/-- C7: when an INSERT of the demo-course trigger loop hits the store-level
(student, course) uniqueness constraint because a racing transaction
committed a row for the pair first (the rows of `raced`), get_or_create
resolves it exactly like a pre-existing row: the trigger run still returns
normally (no exception escapes), the remaining pairs of the same run are
still processed, and every pair — raced ones included — ends with exactly
one stored row. -/
theorem c7_unique_violation_swallowed (db : DB) (raced : List Enrollment)
    (c : Course) (t : Tutor)
    (hfind : db.tutors.find? (fun x => x.id == c.tutorId) = some t)
    (hfresh : ∀ e ∈ db.enrollments, e.courseId ≠ c.id) :
    ∃ db2, autoEnrollDemoCoreRaced db raced c = .ok db2 ∧
      ∀ s ∈ db.students, s.createdById = c.tutorId →
        countPair db2 s.id c.id = 1 := by
  have ht : t.id = c.tutorId := by simpa using List.find?_some hfind
  refine ⟨_, autoEnrollDemoCoreRaced_eq db raced c t hfind, ?_⟩
  intro s hs hcb
  rw [countPair_enrollPairsRaced]
  have hmem : (s.id, c.id) ∈
      (db.students.filter (fun x => x.createdById == t.id)).map
        (fun x => (x.id, c.id)) := by
    refine List.mem_map.mpr ⟨s, List.mem_filter.mpr ⟨hs, ?_⟩, rfl⟩
    simp [hcb, ht]
  have h0 : countPair db s.id c.id = 0 :=
    countPair_eq_zero db s.id c.id (fun e he => Or.inr (hfresh e he))
  rw [if_pos ⟨hmem, h0⟩]

/-- Witness for C7 at a concrete store: tutor 1 has students 1 and 2; a
racing transaction already committed an enrollment row for pair (1, 1), so
the INSERT for student 1 is rejected by the uniqueness key, yet the run
returns normally and both pairs end with exactly one row. -/
theorem c7_unique_violation_swallowed_witness :
    ∃ db2, autoEnrollDemoCoreRaced
        ⟨[], [⟨1, 1, "", 0⟩], [⟨1, 10, 1⟩, ⟨2, 11, 1⟩], [], []⟩
        [⟨99, 1, 1, "active"⟩]
        ⟨1, 1, "Curso Demo", "d", CourseType.demo⟩ = .ok db2 ∧
      ∀ s ∈ (⟨[], [⟨1, 1, "", 0⟩], [⟨1, 10, 1⟩, ⟨2, 11, 1⟩], [], []⟩ : DB).students,
        s.createdById = 1 → countPair db2 s.id 1 = 1 :=
  c7_unique_violation_swallowed
    ⟨[], [⟨1, 1, "", 0⟩], [⟨1, 10, 1⟩, ⟨2, 11, 1⟩], [], []⟩
    [⟨99, 1, 1, "active"⟩]
    ⟨1, 1, "Curso Demo", "d", CourseType.demo⟩ ⟨1, 1, "", 0⟩
    (by decide) (by decide)

/-- C6: auto-enrollment is best-effort: after any Course or Student
creation the created row is in the resulting store, because the post_save
handler catches every exception of the enrollment pass; in particular when
the tutor reference of the created entity resolves to no row the try-body
raises ObjectDoesNotExist, the handler swallows it, and the creation is
the only state change. -/
theorem c6_auto_enroll_best_effort :
    (∀ (db : DB) (c : Course), c ∈ (createCourseRow db c).courses) ∧
    (∀ (db : DB) (s : Student), s ∈ (createStudentRow db s).students) ∧
    (∀ (db : DB) (c : Course), (∀ t ∈ db.tutors, t.id ≠ c.tutorId) →
      autoEnrollDemoCore { db with courses := db.courses ++ [c] } c =
        .error "ObjectDoesNotExist: course tutor" ∧
      createCourseRow db c = { db with courses := db.courses ++ [c] }) ∧
    (∀ (db : DB) (s : Student), (∀ t ∈ db.tutors, t.id ≠ s.createdById) →
      autoEnrollStudentCore { db with students := db.students ++ [s] } s =
        .error "ObjectDoesNotExist: student created_by" ∧
      createStudentRow db s = { db with students := db.students ++ [s] }) := by
  refine ⟨?_, ?_, ?_, ?_⟩
  · intro db c
    have h := (auto1_tables { db with courses := db.courses ++ [c] } c true).2.2.2
    unfold createCourseRow
    rw [h]
    simp
  · intro db s
    have h := (auto2_tables { db with students := db.students ++ [s] } s true).2.2.1
    unfold createStudentRow
    rw [h]
    simp
  · intro db c hno
    have hfind : ({ db with courses := db.courses ++ [c] } : DB).tutors.find?
        (fun t => t.id == c.tutorId) = none := by
      apply List.find?_eq_none.mpr
      intro t ht
      simp [hno t ht]
    constructor
    · unfold autoEnrollDemoCore
      rw [hfind]
    · unfold createCourseRow auto_enroll_students_in_demo_courses
      by_cases hd : c.is_demo = true
      · rw [if_pos (by simp [hd])]
        unfold autoEnrollDemoCore
        rw [hfind]
      · rw [if_neg (by simp [Bool.not_eq_true] at hd; simp [hd])]
  · intro db s hno
    have hfind : ({ db with students := db.students ++ [s] } : DB).tutors.find?
        (fun t => t.id == s.createdById) = none := by
      apply List.find?_eq_none.mpr
      intro t ht
      simp [hno t ht]
    constructor
    · unfold autoEnrollStudentCore
      rw [hfind]
    · unfold createStudentRow auto_enroll_new_student_in_demos
      rw [if_pos rfl]
      unfold autoEnrollStudentCore
      rw [hfind]

/-- Witness for C6 at a concrete store with no tutors: creating a demo
course whose tutor reference is dangling still persists the course and
changes nothing else, while the try-body raises. -/
theorem c6_auto_enroll_best_effort_witness :
    autoEnrollDemoCore
        ⟨[], [], [], [⟨1, 3, "Huerfano", "d", CourseType.demo⟩], []⟩
        ⟨1, 3, "Huerfano", "d", CourseType.demo⟩ =
      .error "ObjectDoesNotExist: course tutor" ∧
    createCourseRow ⟨[], [], [], [], []⟩ ⟨1, 3, "Huerfano", "d", CourseType.demo⟩ =
      ⟨[], [], [], [⟨1, 3, "Huerfano", "d", CourseType.demo⟩], []⟩ :=
  c6_auto_enroll_best_effort.2.2.1 ⟨[], [], [], [], []⟩
    ⟨1, 3, "Huerfano", "d", CourseType.demo⟩ (by decide)

/-- C8: enrollment creation by a non-privileged actor with a Tutor row
fails with an OwnershipViolation whenever the chosen course is not owned by
the actor or the chosen student was not created by the actor, and in that
case no row is persisted (the call returns an error, not a new store);
when it succeeds, both ownership checks held and exactly the chosen
(student, course, status) row was appended — ownership is never silently
reassigned. -/
theorem c8_enrollment_ownership_enforced (db : DB) (u : Account)
    (student : Student) (course : Course) (status : String) (t : Tutor)
    (hsup : u.is_superuser = false)
    (hfind : db.tutorOfUser u.id = some t) :
    ((course.tutorId ≠ t.id ∨ student.createdById ≠ t.id) →
      ∃ msg, EnrollmentAdmin.save_model db u student course status =
        .error (.ownershipViolation msg)) ∧
    (∀ db2, EnrollmentAdmin.save_model db u student course status = .ok db2 →
      course.tutorId = t.id ∧ student.createdById = t.id ∧
      db2 = { db with enrollments := db.enrollments ++
        [⟨db.nextEnrollmentId, student.id, course.id, status⟩] }) := by
  constructor
  · intro h
    by_cases h1 : course.tutorId = t.id
    · have h2 : student.createdById ≠ t.id := by
        rcases h with h | h
        · exact absurd h1 h
        · exact h
      refine ⟨"Intento de matricular estudiante creado por otro tutor.", ?_⟩
      simp [EnrollmentAdmin.save_model, hsup, hfind, h1, h2]
    · refine ⟨"Intento de matricular en curso de otro tutor.", ?_⟩
      simp [EnrollmentAdmin.save_model, hsup, hfind, h1]
  · intro db2 hok
    by_cases h1 : course.tutorId = t.id
    · by_cases h2 : student.createdById = t.id
      · refine ⟨h1, h2, ?_⟩
        simp [EnrollmentAdmin.save_model, hsup, hfind, h1, h2] at hok
        exact hok.symm
      · simp [EnrollmentAdmin.save_model, hsup, hfind, h1, h2] at hok
    · simp [EnrollmentAdmin.save_model, hsup, hfind, h1] at hok

/-- Witness for C8 at a concrete store: tutor 1 (the actor) tries to enroll
their own student into course 7 owned by tutor 2: an OwnershipViolation is
returned. -/
theorem c8_enrollment_ownership_enforced_witness :
    ∃ msg, EnrollmentAdmin.save_model
      ⟨[⟨1, "ana", false⟩], [⟨1, 1, "", 0⟩, ⟨2, 2, "", 0⟩], [⟨1, 10, 1⟩],
        [⟨7, 2, "Curso B", "d", CourseType.level⟩], []⟩
      ⟨1, "ana", false⟩ ⟨1, 10, 1⟩ ⟨7, 2, "Curso B", "d", CourseType.level⟩
      "active" = .error (.ownershipViolation msg) :=
  (c8_enrollment_ownership_enforced
      ⟨[⟨1, "ana", false⟩], [⟨1, 1, "", 0⟩, ⟨2, 2, "", 0⟩], [⟨1, 10, 1⟩],
        [⟨7, 2, "Curso B", "d", CourseType.level⟩], []⟩
      ⟨1, "ana", false⟩ ⟨1, 10, 1⟩ ⟨7, 2, "Curso B", "d", CourseType.level⟩
      "active" ⟨1, 1, "", 0⟩ (by decide) (by decide)).1
    (Or.inl (by decide))

/-- C9: on Course creation by a non-privileged actor the owning tutor of
the persisted row is forced to the Tutor row of the actor, overriding any
caller-supplied tutor value, and when the actor has no Tutor row the
creation fails with the RoleConflict validation error. -/
theorem c9_course_creation_assignment (db : DB) (u : Account) (c : Course)
    (t : Tutor) (hsup : u.is_superuser = false) :
    (db.tutorOfUser u.id = some t →
      ∃ db2, CourseAdmin.save_model db u c false = .ok db2 ∧
        db2.courses = db.courses ++ [{ c with tutorId := t.id }]) ∧
    (db.tutorOfUser u.id = none →
      CourseAdmin.save_model db u c false =
        .error (.roleConflict
          "Tu usuario debe tener un perfil de Tutor para crear cursos.")) := by
  constructor
  · intro hfind
    refine ⟨createCourseRow db { c with tutorId := t.id }, ?_, ?_⟩
    · simp [CourseAdmin.save_model, hsup, hfind]
    · have h := (auto1_tables
        { db with courses := db.courses ++ [{ c with tutorId := t.id }] }
        { c with tutorId := t.id } true).2.2.2
      unfold createCourseRow
      rw [h]
  · intro hfind
    simp [CourseAdmin.save_model, hsup, hfind]

/-- Witness for C9 at a concrete store: actor backed by tutor 1 creates a
course whose caller-supplied tutor is 2; the persisted row is owned by
tutor 1. -/
theorem c9_course_creation_assignment_witness :
    ∃ db2, CourseAdmin.save_model
        ⟨[⟨1, "ana", false⟩], [⟨1, 1, "", 0⟩, ⟨2, 2, "", 0⟩], [], [], []⟩
        ⟨1, "ana", false⟩ ⟨3, 2, "Curso", "d", CourseType.level⟩ false =
      .ok db2 ∧
      db2.courses = [⟨3, 1, "Curso", "d", CourseType.level⟩] :=
  (c9_course_creation_assignment
      ⟨[⟨1, "ana", false⟩], [⟨1, 1, "", 0⟩, ⟨2, 2, "", 0⟩], [], [], []⟩
      ⟨1, "ana", false⟩ ⟨3, 2, "Curso", "d", CourseType.level⟩ ⟨1, 1, "", 0⟩
      (by decide)).1 (by decide)

/-- C2: for every non-privileged actor the four admin queryset filters
return exactly the subset of the corresponding table selected by the
ownership predicate of spec section 4.2 — no more, no fewer (under the
one-to-one key on Tutor.user); and an actor with neither privilege nor an
associated Tutor row receives the empty result from all four, with no
error raised. -/
theorem c2_scope_filter_exact (db : DB) (u : Account)
    (hsup : u.is_superuser = false) (hw : OneTutorPerUser db) :
    TutorAdmin.get_queryset db u = specVisibleTutors db u ∧
    StudentAdmin.get_queryset db u = specVisibleStudents db u ∧
    CourseAdmin.get_queryset db u = specVisibleCourses db u ∧
    EnrollmentAdmin.get_queryset db u = specVisibleEnrollments db u ∧
    ((∀ t ∈ db.tutors, t.userId ≠ u.id) →
      TutorAdmin.get_queryset db u = [] ∧ StudentAdmin.get_queryset db u = [] ∧
      CourseAdmin.get_queryset db u = [] ∧
      EnrollmentAdmin.get_queryset db u = []) := by
  refine ⟨?_, ?_, ?_, ?_, ?_⟩
  · simp [TutorAdmin.get_queryset, specVisibleTutors, hsup]
  · unfold StudentAdmin.get_queryset specVisibleStudents
    rw [if_neg (by simp [hsup])]
    cases hfind : db.tutorOfUser u.id with
    | none =>
      symm
      apply List.filter_eq_nil_iff.mpr
      intro s hs
      intro hany
      obtain ⟨t, ht, hp⟩ := List.any_eq_true.mp hany
      have hnone := List.find?_eq_none.mp hfind t ht
      simp only [Bool.and_eq_true, beq_iff_eq] at hp
      simp [hp.1] at hnone
    | some t =>
      have hmem := List.mem_of_find?_eq_some hfind
      have huid : t.userId = u.id := by
        simpa using List.find?_some hfind
      apply List.filter_congr
      intro s hs
      by_cases hcb : s.createdById = t.id
      · have hany : db.tutors.any
            (fun t2 => t2.userId == u.id && s.createdById == t2.id) = true :=
          List.any_eq_true.mpr ⟨t, hmem, by simp [huid, hcb]⟩
        simp [hcb]
        exact ⟨t, hmem, huid, rfl⟩
      · have hany : db.tutors.any
            (fun t2 => t2.userId == u.id && s.createdById == t2.id) = false := by
          rw [List.any_eq_false]
          intro t2 ht2
          by_cases h2 : t2.userId = u.id
          · have ht2t : t2 = t := hw t2 ht2 t hmem (h2.trans huid.symm)
            subst ht2t
            simp [hcb]
          · simp [h2]
        simp [hcb, hany]
  · unfold CourseAdmin.get_queryset specVisibleCourses
    rw [if_neg (by simp [hsup])]
    apply List.filter_congr
    intro c hc
    refine congrArg db.tutors.any (funext fun t => ?_)
    by_cases h1 : t.id = c.tutorId
    · by_cases h2 : t.userId = u.id <;> simp [h1, h2]
    · refine Bool.eq_iff_iff.mpr ?_
      simp only [Bool.and_eq_true, beq_iff_eq]
      constructor
      · rintro ⟨h, _⟩
        exact absurd h h1
      · rintro ⟨_, h⟩
        exact absurd h.symm h1
  · unfold EnrollmentAdmin.get_queryset specVisibleEnrollments
    rw [if_neg (by simp [hsup])]
    apply List.filter_congr
    intro e he
    refine congrArg db.courses.any (funext fun co => ?_)
    congr 1
    refine congrArg db.tutors.any (funext fun t => ?_)
    by_cases h1 : t.id = co.tutorId
    · by_cases h2 : t.userId = u.id <;> simp [h1, h2]
    · refine Bool.eq_iff_iff.mpr ?_
      simp only [Bool.and_eq_true, beq_iff_eq]
      constructor
      · rintro ⟨h, _⟩
        exact absurd h h1
      · rintro ⟨_, h⟩
        exact absurd h.symm h1
  · intro hno
    refine ⟨?_, ?_, ?_, ?_⟩
    · unfold TutorAdmin.get_queryset
      rw [if_neg (by simp [hsup])]
      apply List.filter_eq_nil_iff.mpr
      intro t ht
      simp [hno t ht]
    · unfold StudentAdmin.get_queryset
      rw [if_neg (by simp [hsup])]
      have hfind : db.tutorOfUser u.id = none :=
        List.find?_eq_none.mpr (fun t ht => by simp [hno t ht])
      rw [hfind]
    · unfold CourseAdmin.get_queryset
      rw [if_neg (by simp [hsup])]
      apply List.filter_eq_nil_iff.mpr
      intro c hc hany
      obtain ⟨t, ht, hp⟩ := List.any_eq_true.mp hany
      simp only [Bool.and_eq_true, beq_iff_eq] at hp
      exact hno t ht hp.2
    · unfold EnrollmentAdmin.get_queryset
      rw [if_neg (by simp [hsup])]
      apply List.filter_eq_nil_iff.mpr
      intro e he hany
      obtain ⟨co, hco, hp⟩ := List.any_eq_true.mp hany
      rw [Bool.and_eq_true] at hp
      obtain ⟨t, ht, hq⟩ := List.any_eq_true.mp hp.2
      simp only [Bool.and_eq_true, beq_iff_eq] at hq
      exact hno t ht hq.2

/-- Witness for C2 at a concrete store with two tutors: the actor backed by
tutor 1 and not privileged sees exactly the spec-owned subset of each
table. -/
theorem c2_scope_filter_exact_witness :
    StudentAdmin.get_queryset
        ⟨[⟨1, "ana", false⟩], [⟨1, 1, "", 0⟩, ⟨2, 2, "", 0⟩],
          [⟨1, 10, 1⟩, ⟨2, 11, 2⟩], [], []⟩ ⟨1, "ana", false⟩ =
      specVisibleStudents
        ⟨[⟨1, "ana", false⟩], [⟨1, 1, "", 0⟩, ⟨2, 2, "", 0⟩],
          [⟨1, 10, 1⟩, ⟨2, 11, 2⟩], [], []⟩ ⟨1, "ana", false⟩ :=
  (c2_scope_filter_exact
      ⟨[⟨1, "ana", false⟩], [⟨1, 1, "", 0⟩, ⟨2, 2, "", 0⟩],
        [⟨1, 10, 1⟩, ⟨2, 11, 2⟩], [], []⟩ ⟨1, "ana", false⟩
      (by decide) (by unfold OneTutorPerUser; decide)).2.1

/-- C1: the role-exclusivity claim requires the guard to run on every save
of a Student row, the initial creation included, keeping the number of
Tutor plus Student rows per account at most 1.  Evaluating the embedded
`Student.save` at a store where account 1 already backs a Tutor row shows
the creation path (`self.pk` unset) skips `full_clean`: the save returns
ok, the account afterwards backs two role rows, although `Student.clean`
itself would have raised the RoleConflict for the very same input. -/
theorem c1_student_creation_skips_role_guard :
    Student.save
        ⟨[⟨1, "ana", false⟩], [⟨1, 1, "", 0⟩], [], [], []⟩ ⟨1, 1, 1⟩ false =
      .ok ⟨[⟨1, "ana", false⟩], [⟨1, 1, "", 0⟩], [⟨1, 1, 1⟩], [], []⟩ ∧
    (⟨[⟨1, "ana", false⟩], [⟨1, 1, "", 0⟩], [⟨1, 1, 1⟩], [], []⟩ : DB).roleRows 1
      = 2 ∧
    Student.clean ⟨[⟨1, "ana", false⟩], [⟨1, 1, "", 0⟩], [], [], []⟩ ⟨1, 1, 1⟩ =
      .error (.roleConflict
        "Este usuario ya es Tutor. Un usuario no puede tener ambos roles.") := by
  exact ⟨rfl, by decide, rfl⟩
